import Mathlib

/-!
Verification of the geospatial flood-exposure analysis pipeline of the
Brandenburg-Flood-Risk repository: the raster flood classifier, the building
and road risk taggers, the statistics aggregator and the census population
apportioner are embedded shallowly and the specified properties are settled
against them.  Exact linear pixel and population arithmetic is modelled over ℚ,
and the trigonometric geodesic code (Web-Mercator projection, haversine
resampling) over ℝ.
-/

namespace Brandenburg

/-- One RGBA pixel of a decoded hazard raster image; each channel is a byte
value in 0–255 as returned by `ctx.getImageData`. -/
structure RGBA where
  r : ℕ
  g : ℕ
  b : ℕ
  a : ℕ
deriving DecidableEq, Repr

/-- A decoded WMS hazard-layer image together with the geographic bounding box
it was requested for (`loadFloodLayerImage` in floodAnalysisService).  The
canvas is modelled as a total function from pixel coordinates to RGBA values;
`west`/`east` are the bounds' south-west/north-east longitudes and
`south`/`north` the corresponding latitudes.  The coordinate field is the
scalar type: ℚ for the exact linear pixel arithmetic, ℝ where the callers
use trigonometric geometry. -/
structure RasterSample (F : Type) where
  west : F
  south : F
  east : F
  north : F
  width : ℤ
  height : ℤ
  pixel : ℤ → ℤ → RGBA

/-- The pixel column of a longitude inside a raster sample:
`Math.floor(((lon - west) / (east - west)) * width)` in `isPointFlooded`. -/
def pixelX {F : Type} [LinearOrderedField F] [FloorRing F]
    (img : RasterSample F) (lon : F) : ℤ :=
  ⌊(lon - img.west) / (img.east - img.west) * (img.width : F)⌋

/-- The pixel row of a latitude inside a raster sample:
`Math.floor(((north - lat) / (north - south)) * height)` in `isPointFlooded`. -/
def pixelY {F : Type} [LinearOrderedField F] [FloorRing F]
    (img : RasterSample F) (lat : F) : ℤ :=
  ⌊(img.north - lat) / (img.north - img.south) * (img.height : F)⌋

/-- Function `isPointFlooded(lat, lon, imageData)` from floodAnalysisService: map the
geographic point linearly onto pixel space with `Math.floor`, classify points
outside the pixel grid as not flooded, and otherwise require the alpha channel
and at least one colour channel to exceed the noise threshold 10. -/
def isPointFlooded {F : Type} [LinearOrderedField F] [FloorRing F]
    (lat lon : F) (img : RasterSample F) : Bool :=
  if pixelX img lon < 0 ∨ pixelX img lon ≥ img.width ∨
      pixelY img lat < 0 ∨ pixelY img lat ≥ img.height then
    false
  else
    let p := img.pixel (pixelX img lon) (pixelY img lat)
    decide (10 < p.a ∧ (10 < p.r ∨ 10 < p.g ∨ 10 < p.b))

/-- JavaScript `s || d` for an optionally present string field: `undefined`,
`null` and the empty string are falsy and select the default. -/
def jsOr (s : Option String) (d : String) : String :=
  match s with
  | none => d
  | some v => if v = "" then d else v

/-- A building produced by `processBuildings` in overpassService: OSM way id,
raw `building` type tag, derived category, and the centroid (arithmetic mean
of the way's node coordinates) at which it is classified. -/
structure Building where
  id : ℤ
  type : Option String
  category : Option String
  lat : ℚ
  lon : ℚ
deriving DecidableEq, Repr

/-- The per-building risk record attached by `analyzeBuildingsFloodRisk`:
three per-tier flags plus the derived `highest` severity string
("extreme", "high", "medium" or "none"). -/
structure FloodRisk where
  extreme : Bool
  high : Bool
  medium : Bool
  highest : String
deriving DecidableEq, Repr

/-- A building together with its flood-risk record (the source spreads the
building's fields into the result object and adds `floodRisk`). -/
structure AnalyzedBuilding where
  building : Building
  floodRisk : FloodRisk
deriving DecidableEq, Repr

/-- Body of the classification loop of `analyzeBuildingsFloodRisk`
(floodAnalysisService): the centroid is tested against each of the three tier
rasters, and `highest` is produced by the source's sequence of overwrites —
start at "none", overwrite with "medium", then "high", then "extreme". -/
def classifyBuilding (extremeImage highImage mediumImage : RasterSample ℚ)
    (b : Building) : AnalyzedBuilding :=
  let isExtreme := isPointFlooded b.lat b.lon extremeImage
  let isHigh := isPointFlooded b.lat b.lon highImage
  let isMedium := isPointFlooded b.lat b.lon mediumImage
  let h0 := "none"
  let h1 := if isMedium then "medium" else h0
  let h2 := if isHigh then "high" else h1
  let h3 := if isExtreme then "extreme" else h2
  ⟨b, ⟨isExtreme, isHigh, isMedium, h3⟩⟩

/-- The pure classification content of `analyzeBuildingsFloodRisk`: every
building in order is classified against the same three raster samples. -/
def analyzeBuildingsFloodRisk (buildings : List Building)
    (extremeImage highImage mediumImage : RasterSample ℚ) : List AnalyzedBuilding :=
  buildings.map (classifyBuilding extremeImage highImage mediumImage)

/-- Specification-side definition for claim C2: the most severe of the three
tier flags that is true, under the fixed order extreme > high > medium, or
"none" when all are false. -/
def specHighestRisk (e h m : Bool) : String :=
  if e then "extreme" else if h then "high" else if m then "medium" else "none"

/-- How the JavaScript runtime sees the third argument of the three-parameter
service function `analyzeBuildingsFloodRisk(buildings, mapBounds, onProgress)`:
omitted (`undefined`), a callable function, or a truthy value that is not
callable. -/
inductive JsCallbackArg
  | undefinedArg
  | callable
  | truthyNonCallable
deriving DecidableEq, Repr

/-- Function `analyzeBuildingsFloodRisk` with its progress-callback control flow:
the guarded call `if (onProgress) onProgress({...})` runs before the
classification loop, so a truthy non-callable value in the callback position
raises a TypeError, which the surrounding catch block re-throws; the analysis
then produces no risk records at all. -/
def analyzeBuildingsFloodRiskJs (buildings : List Building)
    (extremeImage highImage mediumImage : RasterSample ℚ)
    (onProgress : JsCallbackArg) : Except String (List AnalyzedBuilding) :=
  match onProgress with
  | .truthyNonCallable => .error "TypeError: onProgress is not a function"
  | _ => .ok (analyzeBuildingsFloodRisk buildings extremeImage highImage mediumImage)

/-- The call made by the FloodMap component: four arguments
`(buildings, mapBounds, activeFloodLayers, onProgress)` are passed to the
three-parameter service function, so the `activeFloodLayers` object — always
truthy and never callable — lands in the `onProgress` parameter and the real
callback in the fourth position is dropped. -/
def floodMapAnalyzeBuildingsCall (buildings : List Building)
    (extremeImage highImage mediumImage : RasterSample ℚ) :
    Except String (List AnalyzedBuilding) :=
  analyzeBuildingsFloodRiskJs buildings extremeImage highImage mediumImage .truthyNonCallable

/-- One `(total, affected)` pair of the by-type / by-category breakdown maps
of `generateFloodStatistics`. -/
structure TierStat where
  total : ℕ
  affected : ℕ
deriving DecidableEq, Repr

/-- The summary object built by `generateFloodStatistics`.  The JavaScript
objects `byType` and `byCategory` are modelled as association lists in key
insertion order. -/
structure FloodStats where
  total : ℕ
  affectedExtreme : ℕ
  affectedHigh : ℕ
  affectedMedium : ℕ
  affectedAny : ℕ
  byType : List (String × TierStat)
  byCategory : List (String × TierStat)
deriving DecidableEq, Repr

/-- Initialise the key on first use, then increment `total` and, when the
building is affected, `affected` — the `stats.byX[k]` update pattern of
`generateFloodStatistics`. -/
def bumpStat (m : List (String × TierStat)) (k : String) (aff : Bool) :
    List (String × TierStat) :=
  match m with
  | [] => [(k, ⟨1, if aff then 1 else 0⟩)]
  | (k₀, s) :: rest =>
    if k₀ = k then (k₀, ⟨s.total + 1, s.affected + if aff then 1 else 0⟩) :: rest
    else (k₀, s) :: bumpStat rest k aff

/-- Per-building body of the aggregation loop of `generateFloodStatistics`. -/
def statsStep (acc : FloodStats) (b : AnalyzedBuilding) : FloodStats :=
  let isAff := b.floodRisk.highest != "none"
  { acc with
    affectedExtreme := acc.affectedExtreme + if b.floodRisk.extreme then 1 else 0
    affectedHigh := acc.affectedHigh + if b.floodRisk.high then 1 else 0
    affectedMedium := acc.affectedMedium + if b.floodRisk.medium then 1 else 0
    affectedAny := acc.affectedAny + if isAff then 1 else 0
    byType := bumpStat acc.byType (jsOr b.building.type "unknown") isAff
    byCategory := bumpStat acc.byCategory (jsOr b.building.category "Other") isAff }

/-- Function `generateFloodStatistics(analyzedBuildings)` from floodAnalysisService:
`total` is set to the list length up front, then the loop accumulates per-tier
counts, the `any` count (buildings whose `highest` is not "none"), and the
by-type / by-category breakdowns. -/
def generateFloodStatistics (analyzedBuildings : List AnalyzedBuilding) : FloodStats :=
  analyzedBuildings.foldl statsStep
    ⟨analyzedBuildings.length, 0, 0, 0, 0, [], []⟩

/-- Outcome of the `turf.booleanIntersects(commune, polygonGeoJSON)` call for
one commune: the geometry test either returns a boolean or throws, in which
case the source's inner catch skips the commune.  The test is external library
code, so it is modelled as an oracle supplied per analysis run. -/
inductive IntersectOutcome
  | throws
  | result (b : Bool)
deriving DecidableEq, Repr

/-- A cached Brandenburg commune feature as used by
`calculateCensusPopulation`: the `GEN` and `name` properties, whether the
feature has a usable geometry (`geometry` present with a non-empty
`coordinates` array), and the raw census population property
`1000A-0000_de - 1000A-0000_de.csv_Anzahl`. -/
structure Commune where
  gen : Option String
  nameProp : Option String
  hasGeometry : Bool
  popRaw : Option String
deriving DecidableEq, Repr

/-- One entry of the contributing-commune list produced by
`calculateCensusPopulation`. -/
structure AffectedCommune where
  name : String
  population : ℤ
  overlapPercentage : ℚ
  estimatedInArea : ℤ
deriving DecidableEq, Repr

/-- The result object of `calculateCensusPopulation`. -/
structure CensusPopulation where
  total : ℤ
  communes : List AffectedCommune
  communeCount : ℕ
deriving DecidableEq, Repr

/-- Leading decimal digits of a character list, consumed the way
`parseInt` consumes them: stop at the first non-digit; if no digit was
consumed at all the result is NaN, modelled as `none`. -/
def parseLeadingDigits : List Char → ℕ → Bool → Option ℕ
  | [], acc, seen => if seen then some acc else none
  | c :: rest, acc, seen =>
    if c.isDigit then parseLeadingDigits rest (acc * 10 + (c.toNat - 48)) true
    else if seen then some acc else none

/-- JavaScript `parseInt(s, 10)` on the census strings: skip leading
whitespace, read an optional sign and then the leading decimal digits; a
string with no leading digits parses to NaN (`none`). -/
def jsParseInt (s : String) : Option ℤ :=
  match s.toList.dropWhile (fun ch => ch.isWhitespace) with
  | '-' :: rest => (parseLeadingDigits rest 0 false).map (fun n => -(n : ℤ))
  | '+' :: rest => (parseLeadingDigits rest 0 false).map (fun n => (n : ℤ))
  | cs => (parseLeadingDigits cs 0 false).map (fun n => (n : ℤ))

/-- The name lookup `commune.properties.GEN || commune.properties.name || 'Unknown'`. -/
def communeName (c : Commune) : String :=
  jsOr c.gen (jsOr c.nameProp "Unknown")

/-- The census parse `parseInt(commune.properties['...Anzahl'] || '0', 10)`. -/
def communePopulation (c : Commune) : Option ℤ :=
  jsParseInt (jsOr c.popRaw "0")

/-- The contributing-commune entry pushed by `calculateCensusPopulation` when
a commune is counted: full census population, `overlapPercentage: 1.0` and
`estimatedInArea` equal to the full population. -/
def mkAffectedCommune (c : Commune) (p : ℤ) : AffectedCommune :=
  ⟨communeName c, p, 1, p⟩

/-- Per-commune body of the `communes.features.forEach` loop of
`calculateCensusPopulation`: skip features without geometry, skip when the
intersection test throws or returns false, and otherwise count the full
census population when it parses to a strictly positive value. -/
def processCommune (intersectTest : Commune → IntersectOutcome)
    (acc : ℤ × List AffectedCommune) (c : Commune) : ℤ × List AffectedCommune :=
  if c.hasGeometry = false then acc
  else
    match intersectTest c with
    | .throws => acc
    | .result false => acc
    | .result true =>
      match communePopulation c with
      | none => acc
      | some p =>
        if 0 < p then (acc.1 + p, acc.2 ++ [mkAffectedCommune c p])
        else acc

/-- Function `calculateCensusPopulation(polygonCoords)` from censusPopulationService,
with the cached commune collection and the per-commune result of the external
`turf.booleanIntersects` test against the projected analysis polygon supplied
as inputs. -/
def calculateCensusPopulation (communes : List Commune)
    (intersectTest : Commune → IntersectOutcome) : CensusPopulation :=
  let r := communes.foldl (processCommune intersectTest) (0, [])
  ⟨r.1, r.2, r.2.length⟩

/-- The per-tier affected-population object of
`calculateFloodAffectedPopulation`. -/
structure PopulationAffected where
  extreme : ℤ
  high : ℤ
  medium : ℤ
  anyTier : ℤ
deriving DecidableEq, Repr

/-- The result object of `calculateFloodAffectedPopulation`. -/
structure PopulationStats where
  total : ℚ
  affected : PopulationAffected
  communes : List AffectedCommune
deriving DecidableEq, Repr

/-- Function `calculateFloodAffectedPopulation(analyzedBuildings, censusPopulation)`
from censusPopulationService: each tier's estimate is
`Math.round(totalPopulation * (affectedCount / totalBuildings))`.
`Math.round` rounds half towards positive infinity, which is exactly
Mathlib's `round` on ℚ. -/
def calculateFloodAffectedPopulation (analyzedBuildings : List AnalyzedBuilding)
    (censusPopulation : CensusPopulation) : PopulationStats :=
  let totalBuildings := analyzedBuildings.length
  let affectedByExtreme := (analyzedBuildings.filter (fun b => b.floodRisk.extreme)).length
  let affectedByHigh := (analyzedBuildings.filter (fun b => b.floodRisk.high)).length
  let affectedByMedium := (analyzedBuildings.filter (fun b => b.floodRisk.medium)).length
  let affectedByAny :=
    (analyzedBuildings.filter (fun b => b.floodRisk.highest != "none")).length
  let totalPopulation : ℚ := censusPopulation.total
  { total := totalPopulation
    affected :=
      { extreme := round (totalPopulation * ((affectedByExtreme : ℚ) / (totalBuildings : ℚ)))
        high := round (totalPopulation * ((affectedByHigh : ℚ) / (totalBuildings : ℚ)))
        medium := round (totalPopulation * ((affectedByMedium : ℚ) / (totalBuildings : ℚ)))
        anyTier := round (totalPopulation * ((affectedByAny : ℚ) / (totalBuildings : ℚ))) }
    communes := censusPopulation.communes }

/-- Two-argument arctangent with the semantics of the runtime's
`Math.atan2(y, x)` on real inputs (signed zeros aside): the angle of the
point `(x, y)` in `(-π, π]`. -/
noncomputable def atan2 (y x : ℝ) : ℝ :=
  if 0 < x then Real.arctan (y / x)
  else if x < 0 then
    (if 0 ≤ y then Real.arctan (y / x) + Real.pi else Real.arctan (y / x) - Real.pi)
  else
    (if 0 < y then Real.pi / 2 else if y < 0 then -(Real.pi / 2) else 0)

/-- Function `haversineDistance(lat1, lon1, lat2, lon2)` from transportationService:
great-circle distance in meters on a sphere of radius 6 371 000 m. -/
noncomputable def haversineDistance (lat1 lon1 lat2 lon2 : ℝ) : ℝ :=
  let R : ℝ := 6371000
  let phi1 := lat1 * Real.pi / 180
  let phi2 := lat2 * Real.pi / 180
  let dphi := (lat2 - lat1) * Real.pi / 180
  let dlam := (lon2 - lon1) * Real.pi / 180
  let a := Real.sin (dphi / 2) * Real.sin (dphi / 2) +
    Real.cos phi1 * Real.cos phi2 * Real.sin (dlam / 2) * Real.sin (dlam / 2)
  let c := 2 * atan2 (Real.sqrt a) (Real.sqrt (1 - a))
  R * c

/-- A geographic point of a road polyline. -/
structure Coord where
  lat : ℝ
  lon : ℝ

/-- One iteration of the vertex loop of `samplePointsAlongRoad`: always
include the segment's start vertex and, when the segment is longer than the
interval, `Math.floor(distance / interval)` linearly interpolated points at
fractions `j * interval / distance`. -/
noncomputable def sampleSegment (p q : Coord) (intervalMeters : ℝ) : List Coord :=
  let segmentDistance := haversineDistance p.lat p.lon q.lat q.lon
  let inter : List Coord :=
    if intervalMeters < segmentDistance then
      (List.range (⌊segmentDistance / intervalMeters⌋).toNat).map (fun j =>
        let fraction := (((j : ℝ) + 1) * intervalMeters) / segmentDistance
        ⟨p.lat + (q.lat - p.lat) * fraction, p.lon + (q.lon - p.lon) * fraction⟩)
    else []
  p :: inter

/-- The loop of `samplePointsAlongRoad` over consecutive vertex pairs. -/
noncomputable def samplePairs : List Coord → ℝ → List Coord
  | p :: q :: rest, interval => sampleSegment p q interval ++ samplePairs (q :: rest) interval
  | _, _ => []

/-- Function `samplePointsAlongRoad(nodes, intervalMeters)` from transportationService:
resample the polyline, always including each segment's start vertex and,
finally, the last vertex of the road. -/
noncomputable def samplePointsAlongRoad (nodes : List Coord) (intervalMeters : ℝ) :
    List Coord :=
  samplePairs nodes intervalMeters ++ nodes.getLast?.toList

/-- Sum of the haversine distances between consecutive original vertices, in
meters (the loop of `calculateRoadLength`). -/
noncomputable def pathLengthMeters : List Coord → ℝ
  | p :: q :: rest => haversineDistance p.lat p.lon q.lat q.lon + pathLengthMeters (q :: rest)
  | _ => 0

/-- Function `calculateRoadLength(nodes)` from transportationService: total length of
the road in kilometers. -/
noncomputable def calculateRoadLength (nodes : List Coord) : ℝ :=
  pathLengthMeters nodes / 1000

/-- A road produced by `processTransportation`: OSM way id, `highway` class
tag, bridge/tunnel tags and the ordered vertex sequence (ways with fewer than
two resolvable nodes were dropped). -/
structure Road where
  id : ℤ
  type : String
  name : Option String
  bridge : Option String
  tunnel : Option String
  nodes : List Coord

/-- The per-road risk record attached by `analyzeTransportationFloodRisk`. -/
structure RoadFloodRisk where
  totalSamplePoints : ℕ
  affectedPoints : ℕ
  affectedPercentage : ℝ
  totalLength : ℝ
  affectedLength : ℝ
  isPartiallyFlooded : Bool
  isMajorityFlooded : Bool

/-- A road together with its flood-risk record (the source spreads the road's
fields into the result object and adds `floodRisk`). -/
structure AnalyzedRoad where
  road : Road
  floodRisk : RoadFloodRisk

/-- Per-road body of the loop of `analyzeTransportationFloodRisk`: resample
the polyline at a 50 m interval, count the sample points classified as
flooded against the single active flood layer (zero when no layer was
loaded), and derive the percentage, length and flag fields. -/
noncomputable def analyzeRoadRecord (floodImage : Option (RasterSample ℝ))
    (road : Road) : AnalyzedRoad :=
  let samplePoints := samplePointsAlongRoad road.nodes 50
  let affectedPoints : ℕ :=
    match floodImage with
    | some img => (samplePoints.filter (fun pt => isPointFlooded pt.lat pt.lon img)).length
    | none => 0
  let totalLength := calculateRoadLength road.nodes
  let affectedPercentage := ((affectedPoints : ℝ) / (samplePoints.length : ℝ)) * 100
  ⟨road,
    ⟨samplePoints.length, affectedPoints, affectedPercentage, totalLength,
      totalLength * ((affectedPoints : ℝ) / (samplePoints.length : ℝ)),
      decide (0 < affectedPoints), decide (50 < affectedPercentage)⟩⟩

/-- The loop of `analyzeTransportationFloodRisk(roads, ...)` over all roads,
with the single loaded flood layer (or none) supplied as input. -/
noncomputable def analyzeTransportationFloodRisk (roads : List Road)
    (floodImage : Option (RasterSample ℝ)) : List AnalyzedRoad :=
  roads.map (analyzeRoadRecord floodImage)

/-- Function `toEPSG3857(lat, lng)` as written identically in censusPopulationService
and in landCoverService: WGS84 degrees to Web-Mercator meters. -/
noncomputable def toEPSG3857 (lat lng : ℝ) : ℝ × ℝ :=
  let x := lng * 20037508.34 / 180
  let y := Real.log (Real.tan ((90 + lat) * Real.pi / 360)) / (Real.pi / 180)
  (x, y * 20037508.34 / 180)

/-- The projection formula exactly as the specification sentence of claim C3
states it: `x = lon * R/180`, `y = ln(tan((90+lat)*π/360)) * R/180` with
R = 20037508.34. -/
noncomputable def specProjectionFormula (lat lon : ℝ) : ℝ × ℝ :=
  (lon * 20037508.34 / 180,
    Real.log (Real.tan ((90 + lat) * Real.pi / 360)) * 20037508.34 / 180)

/-! Concrete data used by the witnesses. -/

/-- A decoded 800×800 sample for the bounding box (west 13.0, south 52.0,
east 13.1, north 52.1) whose pixel (400, 400) is RGBA(120, 180, 255, 200) and
whose other pixels are fully transparent. -/
def img800 : RasterSample ℚ :=
  { west := 13, south := 52, east := 13.1, north := 52.1, width := 800, height := 800,
    pixel := fun x y => if x = 400 ∧ y = 400 then ⟨120, 180, 255, 200⟩ else ⟨0, 0, 0, 0⟩ }

/-- A fully transparent 800×800 sample over the same bounding box. -/
def imgBlank : RasterSample ℚ :=
  { west := 13, south := 52, east := 13.1, north := 52.1, width := 800, height := 800,
    pixel := fun _ _ => ⟨0, 0, 0, 0⟩ }

/-- A concrete building whose centroid sits at the exact centre of the
`img800` bounding box. -/
def building0 : Building :=
  ⟨1, some "house", some "Residential", 52.05, 13.05⟩

/-- Claim C1: `isPointFlooded` maps the geographic point to the pixel
coordinates px = ⌊(lon−west)/(east−west)·width⌋ and
py = ⌊(north−lat)/(north−south)·height⌋; outside [0,width)×[0,height) it
returns false, and inside it returns true iff the pixel's alpha channel
exceeds 10 and at least one of its red, green, blue channels exceeds 10. -/
theorem isPointFlooded_pixel_rule {F : Type} [LinearOrderedField F] [FloorRing F]
    (img : RasterSample F) (lat lon : F) :
    ((pixelX img lon < 0 ∨ pixelX img lon ≥ img.width ∨
        pixelY img lat < 0 ∨ pixelY img lat ≥ img.height) →
      isPointFlooded lat lon img = false) ∧
    (0 ≤ pixelX img lon → pixelX img lon < img.width →
     0 ≤ pixelY img lat → pixelY img lat < img.height →
      (isPointFlooded lat lon img = true ↔
        10 < (img.pixel (pixelX img lon) (pixelY img lat)).a ∧
          (10 < (img.pixel (pixelX img lon) (pixelY img lat)).r ∨
           10 < (img.pixel (pixelX img lon) (pixelY img lat)).g ∨
           10 < (img.pixel (pixelX img lon) (pixelY img lat)).b))) := by
  constructor
  · intro h
    unfold isPointFlooded
    rw [if_pos h]
  · intro h1 h2 h3 h4
    unfold isPointFlooded
    rw [if_neg]
    · simp only [decide_eq_true_eq]
    · push_neg
      exact ⟨h1, h2, h3, h4⟩

/-- Witness for C1 at the scenario inputs: the centre point (52.05, 13.05) of
the `img800` bounding box maps to pixel (400, 400), which carries
RGBA(120, 180, 255, 200), so the point is classified as flooded. -/
theorem isPointFlooded_pixel_rule_witness :
    isPointFlooded (52.05 : ℚ) 13.05 img800 = true := by
  have hx : pixelX img800 (13.05 : ℚ) = 400 := by
    simp only [pixelX, img800]
    norm_num
  have hy : pixelY img800 (52.05 : ℚ) = 400 := by
    simp only [pixelY, img800]
    norm_num
  refine ((isPointFlooded_pixel_rule img800 52.05 13.05).2 ?_ ?_ ?_ ?_).mpr ?_
  · rw [hx]; norm_num
  · rw [hx]; show (400 : ℤ) < img800.width; norm_num [img800]
  · rw [hy]; norm_num
  · rw [hy]; show (400 : ℤ) < img800.height; norm_num [img800]
  · rw [hx, hy]
    simp [img800]

/-- Claim C2: for every building record produced by the risk tagger, the
`highest` field equals the most severe of the tier flags that is true, under
the fixed severity order extreme > high > medium, and equals "none" when all
three flags are false (which is exactly `specHighestRisk`). -/
theorem buildingHighest_most_severe (buildings : List Building)
    (extremeImage highImage mediumImage : RasterSample ℚ) (a : AnalyzedBuilding)
    (ha : a ∈ analyzeBuildingsFloodRisk buildings extremeImage highImage mediumImage) :
    a.floodRisk.highest =
      specHighestRisk a.floodRisk.extreme a.floodRisk.high a.floodRisk.medium := by
  obtain ⟨b, hb, rfl⟩ := List.mem_map.1 ha
  rfl

/-- Witness for C2: a concrete building classified against `img800` as the
extreme-tier raster (flooded there) and blank high/medium rasters gets
`highest = "extreme"`, matching `specHighestRisk`. -/
theorem buildingHighest_most_severe_witness :
    (classifyBuilding img800 imgBlank imgBlank building0) ∈
        analyzeBuildingsFloodRisk [building0] img800 imgBlank imgBlank ∧
      (classifyBuilding img800 imgBlank imgBlank building0).floodRisk.highest =
        specHighestRisk
          (classifyBuilding img800 imgBlank imgBlank building0).floodRisk.extreme
          (classifyBuilding img800 imgBlank imgBlank building0).floodRisk.high
          (classifyBuilding img800 imgBlank imgBlank building0).floodRisk.medium :=
  ⟨List.mem_singleton.mpr rfl,
    buildingHighest_most_severe [building0] img800 imgBlank imgBlank _
      (List.mem_singleton.mpr rfl)⟩

/-- A building record tagged as affected by the extreme tier only. -/
def buildingExtreme : AnalyzedBuilding :=
  ⟨⟨1, some "house", some "Residential", 52, 13⟩, ⟨true, false, false, "extreme"⟩⟩

/-- A building record affected by no tier. -/
def buildingSafe : AnalyzedBuilding :=
  ⟨⟨2, some "house", some "Residential", 52, 13⟩, ⟨false, false, false, "none"⟩⟩

/-- The building set of spec scenario 4: 100 buildings, 25 of them
extreme-affected. -/
def bs100 : List AnalyzedBuilding :=
  List.replicate 25 buildingExtreme ++ List.replicate 75 buildingSafe

/-- The census result of spec scenario 4: commune population 4000. -/
def census4000 : CensusPopulation := ⟨4000, [], 0⟩

/-- Claim C4: with a non-empty building set (caller precondition), each
per-tier affected-population estimate equals
`round(totalPopulation * (affectedBuildingCount / totalBuildingCount))`. -/
theorem floodAffectedPopulation_round_formula (analyzedBuildings : List AnalyzedBuilding)
    (censusPopulation : CensusPopulation) (hpos : 0 < analyzedBuildings.length) :
    (calculateFloodAffectedPopulation analyzedBuildings censusPopulation).affected.extreme =
      round ((censusPopulation.total : ℚ) *
        (((analyzedBuildings.filter (fun b => b.floodRisk.extreme)).length : ℚ) /
          (analyzedBuildings.length : ℚ))) ∧
    (calculateFloodAffectedPopulation analyzedBuildings censusPopulation).affected.high =
      round ((censusPopulation.total : ℚ) *
        (((analyzedBuildings.filter (fun b => b.floodRisk.high)).length : ℚ) /
          (analyzedBuildings.length : ℚ))) ∧
    (calculateFloodAffectedPopulation analyzedBuildings censusPopulation).affected.medium =
      round ((censusPopulation.total : ℚ) *
        (((analyzedBuildings.filter (fun b => b.floodRisk.medium)).length : ℚ) /
          (analyzedBuildings.length : ℚ))) :=
  ⟨rfl, rfl, rfl⟩

/-- Witness for C4 at spec scenario 4: 100 buildings with 25 extreme-affected
and a commune population of 4000 give an extreme-affected estimate of 1000. -/
theorem floodAffectedPopulation_round_formula_witness :
    0 < bs100.length ∧
    (calculateFloodAffectedPopulation bs100 census4000).affected.extreme =
      round ((census4000.total : ℚ) *
        (((bs100.filter (fun b => b.floodRisk.extreme)).length : ℚ) / (bs100.length : ℚ))) ∧
    (calculateFloodAffectedPopulation bs100 census4000).affected.extreme = 1000 := by
  have h := floodAffectedPopulation_round_formula bs100 census4000 (by decide)
  refine ⟨by decide, h.1, ?_⟩
  rw [h.1]
  rw [show (bs100.filter (fun b => b.floodRisk.extreme)).length = 25 from by decide]
  rw [show bs100.length = 100 from by decide]
  show round ((((4000 : ℤ) : ℚ)) * (((25 : ℕ) : ℚ) / ((100 : ℕ) : ℚ))) = 1000
  norm_num [round_eq]

/-- Claim C9: at the FloodMap call site the building tagger always rejects
with a TypeError — the four-argument call puts the truthy, non-callable
`activeFloodLayers` object into the three-parameter function's `onProgress`
slot — whereas with a correctly supplied callable callback (or with the
callback omitted) the tagger returns exactly the records of the pure
classification, so a real callback never changes outcomes. -/
theorem floodMap_buildingProgress_typeError :
    (∀ (buildings : List Building) (eImg hImg mImg : RasterSample ℚ),
        floodMapAnalyzeBuildingsCall buildings eImg hImg mImg =
          Except.error "TypeError: onProgress is not a function") ∧
    (∀ (buildings : List Building) (eImg hImg mImg : RasterSample ℚ),
        analyzeBuildingsFloodRiskJs buildings eImg hImg mImg .callable =
            Except.ok (analyzeBuildingsFloodRisk buildings eImg hImg mImg) ∧
          analyzeBuildingsFloodRiskJs buildings eImg hImg mImg .undefinedArg =
            Except.ok (analyzeBuildingsFloodRisk buildings eImg hImg mImg)) :=
  ⟨fun _ _ _ _ => rfl, fun _ _ _ _ => ⟨rfl, rfl⟩⟩

/-- Sum of the `total` fields over the entries of a breakdown map. -/
def sumTotals (m : List (String × TierStat)) : ℕ :=
  (m.map (fun e => e.2.total)).sum

/-- Sum of the `affected` fields over the entries of a breakdown map. -/
def sumAffected (m : List (String × TierStat)) : ℕ :=
  (m.map (fun e => e.2.affected)).sum

lemma sumTotals_bumpStat (m : List (String × TierStat)) (k : String) (aff : Bool) :
    sumTotals (bumpStat m k aff) = sumTotals m + 1 := by
  induction m with
  | nil => simp [bumpStat, sumTotals]
  | cons e rest ih =>
    obtain ⟨k₀, s⟩ := e
    by_cases hk : k₀ = k
    · simp [bumpStat, hk, sumTotals]
      omega
    · simp only [bumpStat, if_neg hk, sumTotals, List.map_cons, List.sum_cons] at *
      omega

lemma sumAffected_bumpStat (m : List (String × TierStat)) (k : String) (aff : Bool) :
    sumAffected (bumpStat m k aff) = sumAffected m + if aff then 1 else 0 := by
  induction m with
  | nil => simp [bumpStat, sumAffected]
  | cons e rest ih =>
    obtain ⟨k₀, s⟩ := e
    by_cases hk : k₀ = k
    · simp [bumpStat, hk, sumAffected]
      omega
    · simp only [bumpStat, if_neg hk, sumAffected, List.map_cons, List.sum_cons] at *
      omega

lemma statsFold_invariant (bs : List AnalyzedBuilding) :
    ∀ acc : FloodStats,
      (bs.foldl statsStep acc).total = acc.total ∧
      sumTotals (bs.foldl statsStep acc).byCategory =
        sumTotals acc.byCategory + bs.length ∧
      sumAffected (bs.foldl statsStep acc).byCategory =
        sumAffected acc.byCategory +
          (bs.filter (fun b => b.floodRisk.highest != "none")).length ∧
      (bs.foldl statsStep acc).affectedAny =
        acc.affectedAny +
          (bs.filter (fun b => b.floodRisk.highest != "none")).length := by
  induction bs with
  | nil => intro acc; simp
  | cons b rest ih =>
    intro acc
    obtain ⟨ih1, ih2, ih3, ih4⟩ := ih (statsStep acc b)
    have hstep1 : (statsStep acc b).total = acc.total := rfl
    have hstep2 : (statsStep acc b).byCategory =
        bumpStat acc.byCategory (jsOr b.building.category "Other")
          (b.floodRisk.highest != "none") := rfl
    have hstep4 : (statsStep acc b).affectedAny =
        acc.affectedAny + if b.floodRisk.highest != "none" then 1 else 0 := rfl
    simp only [List.foldl_cons, List.filter_cons]
    refine ⟨by rw [ih1, hstep1], ?_, ?_, ?_⟩
    · rw [ih2, hstep2, sumTotals_bumpStat]
      cases hb : b.floodRisk.highest != "none" <;> simp [hb] <;> omega
    · rw [ih3, hstep2, sumAffected_bumpStat]
      cases hb : b.floodRisk.highest != "none" <;> simp [hb] <;> omega
    · rw [ih4, hstep4]
      cases hb : b.floodRisk.highest != "none" <;> simp [hb] <;> omega

/-- Claim C8: for every risk-tagged building list, the by-category breakdown
of `generateFloodStatistics` is consistent with the headline figures — the
`total` fields of the category entries sum to the summary's `total`, and the
`affected` fields sum to the summary's `any` count, which itself counts the
buildings whose `highest` tier is not "none". -/
theorem floodStatistics_category_sums (analyzedBuildings : List AnalyzedBuilding) :
    sumTotals (generateFloodStatistics analyzedBuildings).byCategory =
      (generateFloodStatistics analyzedBuildings).total ∧
    sumAffected (generateFloodStatistics analyzedBuildings).byCategory =
      (generateFloodStatistics analyzedBuildings).affectedAny ∧
    (generateFloodStatistics analyzedBuildings).affectedAny =
      (analyzedBuildings.filter (fun b => b.floodRisk.highest != "none")).length := by
  obtain ⟨h1, h2, h3, h4⟩ :=
    statsFold_invariant analyzedBuildings ⟨analyzedBuildings.length, 0, 0, 0, 0, [], []⟩
  unfold generateFloodStatistics
  refine ⟨?_, ?_, ?_⟩
  · rw [h2, h1]; simp [sumTotals]
  · rw [h3, h4]; simp [sumAffected]
  · rw [h4]; simp

/-- Whether (and with which parsed population) a commune is counted by
`calculateCensusPopulation`: it must have a usable geometry, the intersection
test must succeed and return true, and the census field must parse to a
strictly positive value. -/
def communeAdmitted (intersectTest : Commune → IntersectOutcome) (c : Commune) :
    Option ℤ :=
  if c.hasGeometry = false then none
  else
    match intersectTest c with
    | .result true =>
      match communePopulation c with
      | some p => if 0 < p then some p else none
      | none => none
    | _ => none

lemma processCommune_admitted (intersectTest : Commune → IntersectOutcome)
    (acc : ℤ × List AffectedCommune) (c : Commune) :
    processCommune intersectTest acc c =
      match communeAdmitted intersectTest c with
      | some p => (acc.1 + p, acc.2 ++ [mkAffectedCommune c p])
      | none => acc := by
  unfold processCommune communeAdmitted
  cases hg : c.hasGeometry with
  | false => simp
  | true =>
    simp only [Bool.true_eq_false, if_false]
    cases hf : intersectTest c with
    | throws => simp
    | result b =>
      cases b with
      | false => simp
      | true =>
        cases hp : communePopulation c with
        | none => simp
        | some p =>
          by_cases hpos : 0 < p
          · simp [hpos]
          · simp [hpos]

lemma censusFold_action (intersectTest : Commune → IntersectOutcome)
    (cs : List Commune) :
    ∀ (t : ℤ) (l : List AffectedCommune),
      cs.foldl (processCommune intersectTest) (t, l) =
        (t + (cs.foldl (processCommune intersectTest) (0, [])).1,
          l ++ (cs.foldl (processCommune intersectTest) (0, [])).2) := by
  induction cs with
  | nil => intro t l; simp
  | cons c cs ih =>
    intro t l
    simp only [List.foldl_cons]
    rw [processCommune_admitted intersectTest (t, l) c,
      processCommune_admitted intersectTest (0, []) c]
    rcases hA : communeAdmitted intersectTest c with _ | p
    · simp only [hA]
      exact ih t l
    · simp only [hA]
      rw [ih (t + p) (l ++ [mkAffectedCommune c p]),
        ih (0 + p) ([] ++ [mkAffectedCommune c p])]
      simp [Prod.ext_iff, List.append_assoc, add_assoc]

lemma censusFold_append (intersectTest : Commune → IntersectOutcome)
    (xs ys : List Commune) :
    (xs ++ ys).foldl (processCommune intersectTest) (0, []) =
      ((xs.foldl (processCommune intersectTest) (0, [])).1 +
          (ys.foldl (processCommune intersectTest) (0, [])).1,
        (xs.foldl (processCommune intersectTest) (0, [])).2 ++
          (ys.foldl (processCommune intersectTest) (0, [])).2) := by
  rw [List.foldl_append]
  have h := censusFold_action intersectTest ys
    (xs.foldl (processCommune intersectTest) (0, [])).1
    (xs.foldl (processCommune intersectTest) (0, [])).2
  rw [Prod.mk.eta] at h
  exact h

lemma communeAdmitted_pos (intersectTest : Commune → IntersectOutcome)
    (c : Commune) (p : ℤ) (h : communeAdmitted intersectTest c = some p) : 0 < p := by
  unfold communeAdmitted at h
  cases hg : c.hasGeometry with
  | false => rw [hg] at h; simp at h
  | true =>
    rw [hg] at h
    simp only [Bool.true_eq_false, if_false] at h
    cases hf : intersectTest c with
    | throws => rw [hf] at h; simp at h
    | result b =>
      rw [hf] at h
      cases b with
      | false => simp at h
      | true =>
        simp only at h
        cases hp : communePopulation c with
        | none => rw [hp] at h; simp at h
        | some q =>
          rw [hp] at h
          simp only at h
          by_cases hq : 0 < q
          · rw [if_pos hq] at h
            cases h
            exact hq
          · rw [if_neg hq] at h
            simp at h

lemma communeAdmitted_none_of_nonpos (intersectTest : Commune → IntersectOutcome)
    (c : Commune) (hnp : (communePopulation c).getD 0 ≤ 0) :
    communeAdmitted intersectTest c = none := by
  unfold communeAdmitted
  cases hg : c.hasGeometry with
  | false => simp
  | true =>
    simp only [Bool.true_eq_false, if_false]
    cases hf : intersectTest c with
    | throws => simp
    | result b =>
      cases b with
      | false => simp
      | true =>
        simp only
        cases hp : communePopulation c with
        | none => simp
        | some q =>
          rw [hp] at hnp
          simp only [Option.getD_some] at hnp
          simp [not_lt.mpr hnp]

lemma communeAdmitted_some (intersectTest : Commune → IntersectOutcome)
    (c : Commune) (p : ℤ) (hg : c.hasGeometry = true)
    (hf : intersectTest c = .result true) (hp : communePopulation c = some p)
    (hpos : 0 < p) : communeAdmitted intersectTest c = some p := by
  unfold communeAdmitted
  rw [hg, hf, hp]
  simp [hpos]

lemma censusFold_singleton (intersectTest : Commune → IntersectOutcome) (c : Commune) :
    [c].foldl (processCommune intersectTest) (0, []) =
      match communeAdmitted intersectTest c with
      | some p => ((p : ℤ), [mkAffectedCommune c p])
      | none => (0, []) := by
  rw [List.foldl_cons, List.foldl_nil, processCommune_admitted]
  rcases hA : communeAdmitted intersectTest c with _ | p <;> simp

lemma censusFold_entries (intersectTest : Commune → IntersectOutcome)
    (cs : List Commune) :
    ∀ e ∈ (cs.foldl (processCommune intersectTest) (0, [])).2,
      0 < e.population ∧ e.estimatedInArea = e.population := by
  induction cs with
  | nil => intro e he; simp at he
  | cons c cs ih =>
    intro e he
    rw [List.foldl_cons, processCommune_admitted] at he
    rcases hA : communeAdmitted intersectTest c with _ | p
    · rw [hA] at he
      exact ih e he
    · rw [hA] at he
      rw [censusFold_action] at he
      simp only [List.nil_append, List.cons_append, List.mem_append,
        List.mem_singleton] at he
      cases he with
      | head => exact ⟨communeAdmitted_pos intersectTest c p hA, rfl⟩
      | tail _ h2 => exact ih e h2

/-- A commune with valid geometry whose census population field is the
string "0". -/
def communeZeroPop : Commune := ⟨some "Nullhausen", none, true, some "0"⟩

/-- A commune of census population 500. -/
def communeA : Commune := ⟨some "A", none, true, some "500"⟩

/-- A commune of census population 1500. -/
def communeB : Commune := ⟨some "B", none, true, some "1500"⟩

/-- An intersection oracle under which every commune intersects the analysis
polygon. -/
def alwaysIntersects : Commune → IntersectOutcome := fun _ => .result true

/-- Counterexample to claim C5 as stated: a commune with valid geometry whose
intersection test returns true but whose census population field parses to 0
is NOT listed as a contributing commune — so it is not true that every
intersecting commune is listed at full overlap. -/
theorem censusPopulation_zero_pop_not_listed :
    communeZeroPop.hasGeometry = true ∧
    alwaysIntersects communeZeroPop = .result true ∧
    communePopulation communeZeroPop = some 0 ∧
    (calculateCensusPopulation [communeZeroPop] alwaysIntersects).communes = [] ∧
    (calculateCensusPopulation [communeZeroPop] alwaysIntersects).communeCount = 0 := by
  refine ⟨rfl, rfl, by decide, by decide, by decide⟩

/-- Claim C5 (amended): every commune with a usable geometry whose
intersection test succeeds with true and whose census population parses to a
strictly positive value p contributes its ENTIRE population to the area total
and is listed as contributing at full overlap (overlapPercentage 1.0 and
estimatedInArea = p); a commune whose intersection test throws is skipped
without affecting the rest of the computation. -/
theorem censusPopulation_full_overlap (intersectTest : Commune → IntersectOutcome)
    (pre post : List Commune) (c : Commune) (p : ℤ)
    (hg : c.hasGeometry = true) (hf : intersectTest c = .result true)
    (hp : communePopulation c = some p) (hpos : 0 < p) :
    (calculateCensusPopulation (pre ++ c :: post) intersectTest).total =
      (calculateCensusPopulation (pre ++ post) intersectTest).total + p ∧
    mkAffectedCommune c p ∈
      (calculateCensusPopulation (pre ++ c :: post) intersectTest).communes ∧
    (mkAffectedCommune c p).population = p ∧
    (mkAffectedCommune c p).overlapPercentage = 1 ∧
    (mkAffectedCommune c p).estimatedInArea = p ∧
    (∀ errC : Commune, intersectTest errC = .throws →
      calculateCensusPopulation (pre ++ errC :: post) intersectTest =
        calculateCensusPopulation (pre ++ post) intersectTest) := by
  have hadm := communeAdmitted_some intersectTest c p hg hf hp hpos
  have hmid : ∀ d : Commune, pre ++ d :: post = (pre ++ [d]) ++ post := by
    intro d; simp
  have hFc : [c].foldl (processCommune intersectTest) (0, []) =
      (p, [mkAffectedCommune c p]) := by
    rw [censusFold_singleton, hadm]
  refine ⟨?_, ?_, rfl, rfl, rfl, ?_⟩
  · show ((pre ++ c :: post).foldl (processCommune intersectTest) (0, [])).1 =
      ((pre ++ post).foldl (processCommune intersectTest) (0, [])).1 + p
    rw [hmid c, censusFold_append intersectTest (pre ++ [c]) post,
      censusFold_append intersectTest pre [c], hFc,
      censusFold_append intersectTest pre post]
    ring
  · show mkAffectedCommune c p ∈
      ((pre ++ c :: post).foldl (processCommune intersectTest) (0, [])).2
    rw [hmid c, censusFold_append intersectTest (pre ++ [c]) post,
      censusFold_append intersectTest pre [c], hFc]
    simp
  · intro errC herr
    have hnone : communeAdmitted intersectTest errC = none := by
      unfold communeAdmitted
      cases hge : errC.hasGeometry <;> simp [herr]
    have hFe : [errC].foldl (processCommune intersectTest) (0, []) = (0, []) := by
      rw [censusFold_singleton, hnone]
    have hfold : ((pre ++ errC :: post).foldl (processCommune intersectTest) (0, [])) =
        ((pre ++ post).foldl (processCommune intersectTest) (0, [])) := by
      rw [hmid errC, censusFold_append intersectTest (pre ++ [errC]) post,
        censusFold_append intersectTest pre [errC], hFe,
        censusFold_append intersectTest pre post]
      simp
    unfold calculateCensusPopulation
    rw [hfold]

/-- Witness for C5 at spec scenario 5: two intersecting communes of
population 500 and 1500 yield a total of 2000, with both listed at full
overlap; adding commune B to the set [A] adds exactly 1500 and lists B. -/
theorem censusPopulation_full_overlap_witness :
    communeB.hasGeometry = true ∧
    alwaysIntersects communeB = .result true ∧
    communePopulation communeB = some 1500 ∧
    (0 : ℤ) < 1500 ∧
    ((calculateCensusPopulation ([communeA] ++ communeB :: []) alwaysIntersects).total =
        (calculateCensusPopulation ([communeA] ++ []) alwaysIntersects).total + 1500 ∧
      mkAffectedCommune communeB 1500 ∈
        (calculateCensusPopulation ([communeA] ++ communeB :: []) alwaysIntersects).communes ∧
      (mkAffectedCommune communeB 1500).population = 1500 ∧
      (mkAffectedCommune communeB 1500).overlapPercentage = 1 ∧
      (mkAffectedCommune communeB 1500).estimatedInArea = 1500 ∧
      (∀ errC : Commune, alwaysIntersects errC = .throws →
        calculateCensusPopulation ([communeA] ++ errC :: []) alwaysIntersects =
          calculateCensusPopulation ([communeA] ++ []) alwaysIntersects)) ∧
    calculateCensusPopulation [communeA, communeB] alwaysIntersects =
      ⟨2000, [⟨"A", 500, 1, 500⟩, ⟨"B", 1500, 1, 1500⟩], 2⟩ :=
  ⟨rfl, rfl, by decide, by decide,
    censusPopulation_full_overlap alwaysIntersects [communeA] [] communeB 1500
      rfl rfl (by decide) (by decide),
    by decide⟩

/-- Claim C10: a commune that intersects the analysis area but whose census
population field parses to a non-positive value (zero, negative, missing or
unparseable — captured by `(communePopulation c).getD 0 ≤ 0`) is excluded
from both the total and the contributing-commune list, and every listed
commune has a strictly positive population with `estimatedInArea` equal to
its full census population. -/
theorem censusPopulation_excludes_nonpositive (communes : List Commune)
    (intersectTest : Commune → IntersectOutcome)
    (pre post : List Commune) (c : Commune)
    (hf : intersectTest c = .result true)
    (hnp : (communePopulation c).getD 0 ≤ 0) :
    (∀ e ∈ (calculateCensusPopulation communes intersectTest).communes,
        0 < e.population ∧ e.estimatedInArea = e.population) ∧
    calculateCensusPopulation (pre ++ c :: post) intersectTest =
      calculateCensusPopulation (pre ++ post) intersectTest := by
  have hnone := communeAdmitted_none_of_nonpos intersectTest c hnp
  have hFe : [c].foldl (processCommune intersectTest) (0, []) = (0, []) := by
    rw [censusFold_singleton, hnone]
  have hmid : pre ++ c :: post = (pre ++ [c]) ++ post := by simp
  constructor
  · exact censusFold_entries intersectTest communes
  · have hfold : ((pre ++ c :: post).foldl (processCommune intersectTest) (0, [])) =
        ((pre ++ post).foldl (processCommune intersectTest) (0, [])) := by
      rw [hmid, censusFold_append intersectTest (pre ++ [c]) post,
        censusFold_append intersectTest pre [c], hFe,
        censusFold_append intersectTest pre post]
      simp
    unfold calculateCensusPopulation
    rw [hfold]

/-- Witness for C10: a commune whose census field parses to −3 intersects but
is excluded — the result over [A, N, B] equals the result over [A, B] — and
every listed commune of that run has positive population equal to its
`estimatedInArea`. -/
theorem censusPopulation_excludes_nonpositive_witness :
    alwaysIntersects ⟨some "N", none, true, some "-3"⟩ = .result true ∧
    (communePopulation ⟨some "N", none, true, some "-3"⟩).getD 0 ≤ 0 ∧
    ((∀ e ∈ (calculateCensusPopulation [communeA, communeB] alwaysIntersects).communes,
        0 < e.population ∧ e.estimatedInArea = e.population) ∧
      calculateCensusPopulation
          ([communeA] ++ (⟨some "N", none, true, some "-3"⟩ : Commune) :: [communeB])
          alwaysIntersects =
        calculateCensusPopulation ([communeA] ++ [communeB]) alwaysIntersects) :=
  ⟨rfl, by decide,
    censusPopulation_excludes_nonpositive [communeA, communeB] alwaysIntersects
      [communeA] [communeB] ⟨some "N", none, true, some "-3"⟩ rfl (by decide)⟩

/-- Claim C3 (amended): `toEPSG3857` returns exactly x = lon·R/180 and
y = ln(tan((90+lat)·π/360)) · R/π with R = 20037508.34 — the code divides
the log term by π/180 before scaling by R/180, so the spec's stated
y = ln(tan((90+lat)·π/360)) · R/180 is off by a factor of 180/π. -/
theorem toEPSG3857_closed_form (lat lon : ℝ) :
    toEPSG3857 lat lon =
      (lon * 20037508.34 / 180,
        Real.log (Real.tan ((90 + lat) * Real.pi / 360)) * 20037508.34 / Real.pi) := by
  unfold toEPSG3857
  rw [Prod.mk.injEq]
  refine ⟨rfl, ?_⟩
  have hpi : Real.pi ≠ 0 := Real.pi_ne_zero
  field_simp
  ring

/-- Counterexample to claim C3 as stated: at (lat, lon) = (30, 0) the code's
projection differs from the spec formula y = ln(tan((90+lat)·π/360))·R/180,
because ln(tan(π/3)) = ln √3 > 0 and dividing by π/180 is not the identity. -/
theorem toEPSG3857_spec_formula_refuted :
    toEPSG3857 30 0 ≠ specProjectionFormula 30 0 := by
  intro hEq
  have h2 := congrArg Prod.snd hEq
  simp only [toEPSG3857, specProjectionFormula] at h2
  have harg : ((90 : ℝ) + 30) * Real.pi / 360 = Real.pi / 3 := by ring
  rw [harg, Real.tan_pi_div_three] at h2
  have hlog : 0 < Real.log (Real.sqrt 3) := by
    apply Real.log_pos
    have h1 : (1 : ℝ) = Real.sqrt 1 := Real.sqrt_one.symm
    rw [h1]
    exact Real.sqrt_lt_sqrt (by norm_num) (by norm_num)
  have hpipos := Real.pi_pos
  have hpi4 := Real.pi_le_four
  have hpi : Real.pi ≠ 0 := Real.pi_ne_zero
  field_simp at h2
  nlinarith [mul_pos hlog (show (0 : ℝ) < 20037508.34 by norm_num)]

lemma atan2_nonneg (y x : ℝ) (hy : 0 ≤ y) : 0 ≤ atan2 y x := by
  unfold atan2
  split_ifs with h1 h2 h3 h4 h5 <;>
    first
    | (have h := Real.arctan_strictMono.monotone (div_nonneg hy h1.le)
       rwa [Real.arctan_zero] at h)
    | (have hgt := Real.neg_pi_div_two_lt_arctan (y / x)
       have hpi := Real.pi_pos
       linarith)
    | linarith [Real.pi_pos]
    | exact le_refl 0

lemma haversineDistance_nonneg (lat1 lon1 lat2 lon2 : ℝ) :
    0 ≤ haversineDistance lat1 lon1 lat2 lon2 := by
  simp only [haversineDistance]
  apply mul_nonneg (by norm_num)
  apply mul_nonneg (by norm_num)
  exact atan2_nonneg _ _ (Real.sqrt_nonneg _)

lemma pathLengthMeters_nonneg (nodes : List Coord) : 0 ≤ pathLengthMeters nodes := by
  induction nodes with
  | nil => simp [pathLengthMeters]
  | cons p rest ih =>
    cases rest with
    | nil => simp [pathLengthMeters]
    | cons q rest2 =>
      have h1 := haversineDistance_nonneg p.lat p.lon q.lat q.lon
      have h2 : pathLengthMeters (p :: q :: rest2) =
          haversineDistance p.lat p.lon q.lat q.lon + pathLengthMeters (q :: rest2) := rfl
      rw [h2]
      exact add_nonneg h1 ih

lemma calculateRoadLength_nonneg (nodes : List Coord) :
    0 ≤ calculateRoadLength nodes :=
  div_nonneg (pathLengthMeters_nonneg nodes) (by norm_num)

lemma samplePairs_length (i : ℝ) (ns : List Coord) :
    ns.length - 1 ≤ (samplePairs ns i).length := by
  induction ns with
  | nil => simp [samplePairs]
  | cons p rest ih =>
    cases rest with
    | nil => simp [samplePairs]
    | cons q rest2 =>
      have h2 : samplePairs (p :: q :: rest2) i =
          sampleSegment p q i ++ samplePairs (q :: rest2) i := rfl
      rw [h2, List.length_append]
      have h3 : 1 ≤ (sampleSegment p q i).length := by
        simp [sampleSegment]
      simp only [List.length_cons] at *
      omega

lemma samplePointsAlongRoad_length (ns : List Coord) (i : ℝ) :
    ns.length ≤ (samplePointsAlongRoad ns i).length := by
  unfold samplePointsAlongRoad
  rw [List.length_append]
  cases ns with
  | nil => simp
  | cons p rest =>
    have h1 := samplePairs_length i (p :: rest)
    have h2 : ((p :: rest).getLast?.toList).length = 1 := by
      rw [List.getLast?_eq_getLast_of_ne_nil (by simp)]
      rfl
    simp only [List.length_cons] at *
    omega

lemma road_ratio_le (L : ℝ) (hL : 0 ≤ L) (ap n : ℕ) (hap : ap ≤ n) :
    L * ((ap : ℝ) / (n : ℝ)) ≤ L := by
  have hratio : (ap : ℝ) / (n : ℝ) ≤ 1 := by
    rcases Nat.eq_zero_or_pos n with h0 | hpos
    · subst h0
      simp
    · rw [div_le_one (by positivity)]
      exact_mod_cast hap
  exact mul_le_of_le_one_right hL hratio

lemma road_majority_partial (ap n : ℕ)
    (h : decide ((50 : ℝ) < (ap : ℝ) / (n : ℝ) * 100) = true) :
    decide (0 < ap) = true := by
  simp only [decide_eq_true_eq] at h ⊢
  rcases Nat.eq_zero_or_pos ap with h0 | hpos
  · subst h0
    simp at h
    linarith
  · exact hpos

/-- A concrete two-vertex road used by the road-invariant witness. -/
def road0 : Road := ⟨7, "primary", none, none, none, [⟨0, 0⟩, ⟨0, 1⟩]⟩

/-- Claim C6: every road risk record produced by the transportation tagger
has at least as many sample points as the road has original vertices, an
affected length never exceeding the total length, and a majority-flooded flag
that implies the partially-flooded flag. -/
theorem roadRiskRecord_invariants (roads : List Road)
    (floodImage : Option (RasterSample ℝ)) (ar : AnalyzedRoad)
    (har : ar ∈ analyzeTransportationFloodRisk roads floodImage) :
    ar.road.nodes.length ≤ ar.floodRisk.totalSamplePoints ∧
    ar.floodRisk.affectedLength ≤ ar.floodRisk.totalLength ∧
    (ar.floodRisk.isMajorityFlooded = true → ar.floodRisk.isPartiallyFlooded = true) := by
  obtain ⟨road, hr, rfl⟩ := List.mem_map.1 har
  clear har hr
  have hap : (match floodImage with
      | some img =>
        ((samplePointsAlongRoad road.nodes 50).filter
          (fun pt => isPointFlooded pt.lat pt.lon img)).length
      | none => 0) ≤ (samplePointsAlongRoad road.nodes 50).length := by
    cases floodImage with
    | none => simp
    | some img => exact List.length_filter_le _ _
  refine ⟨?_, ?_, ?_⟩
  · exact samplePointsAlongRoad_length road.nodes 50
  · exact road_ratio_le _ (calculateRoadLength_nonneg road.nodes) _ _ hap
  · exact road_majority_partial _ _

/-- Witness for C6 at a concrete two-vertex road analysed with no flood layer
loaded. -/
theorem roadRiskRecord_invariants_witness :
    (analyzeRoadRecord none road0) ∈ analyzeTransportationFloodRisk [road0] none ∧
    ((analyzeRoadRecord none road0).road.nodes.length ≤
        (analyzeRoadRecord none road0).floodRisk.totalSamplePoints ∧
      (analyzeRoadRecord none road0).floodRisk.affectedLength ≤
        (analyzeRoadRecord none road0).floodRisk.totalLength ∧
      ((analyzeRoadRecord none road0).floodRisk.isMajorityFlooded = true →
        (analyzeRoadRecord none road0).floodRisk.isPartiallyFlooded = true)) :=
  ⟨List.mem_singleton.mpr rfl,
    roadRiskRecord_invariants [road0] none _ (List.mem_singleton.mpr rfl)⟩

/-- Claim C7: a road of exactly two vertices at haversine distance 120 m,
resampled at a 50 m interval, yields exactly 4 sample points — the first
vertex, the linear interpolations at fractions 50/120 and 100/120 of the
segment (i.e. at 50 m and 100 m along the 120 m segment), and the last
vertex (at 120 m). -/
theorem twoVertexRoad_resampling (p q : Coord)
    (h : haversineDistance p.lat p.lon q.lat q.lon = 120) :
    samplePointsAlongRoad [p, q] 50 =
      [p,
        ⟨p.lat + (q.lat - p.lat) * (50 / 120), p.lon + (q.lon - p.lon) * (50 / 120)⟩,
        ⟨p.lat + (q.lat - p.lat) * (100 / 120), p.lon + (q.lon - p.lon) * (100 / 120)⟩,
        q] ∧
    (samplePointsAlongRoad [p, q] 50).length = 4 := by
  have hfloor : ⌊(120 : ℝ) / 50⌋ = 2 := by
    rw [Int.floor_eq_iff]
    norm_num
  have h1 : samplePointsAlongRoad [p, q] 50 = sampleSegment p q 50 ++ [q] := by
    show samplePairs [p, q] 50 ++ ([p, q].getLast?.toList) = _
    have h2 : samplePairs [p, q] 50 = sampleSegment p q 50 ++ [] := rfl
    have h3 : ([p, q].getLast?.toList) = [q] := rfl
    rw [h2, h3, List.append_nil]
  have h4 : sampleSegment p q 50 =
      [p,
        ⟨p.lat + (q.lat - p.lat) * (50 / 120), p.lon + (q.lon - p.lon) * (50 / 120)⟩,
        ⟨p.lat + (q.lat - p.lat) * (100 / 120), p.lon + (q.lon - p.lon) * (100 / 120)⟩] := by
    simp only [sampleSegment]
    rw [h]
    rw [if_pos (by norm_num : (50 : ℝ) < 120)]
    rw [hfloor]
    rw [show ((2 : ℤ).toNat) = 2 from rfl, show List.range 2 = [0, 1] from rfl]
    simp only [List.map_cons, List.map_nil, Coord.mk.injEq, List.cons.injEq, and_true,
      List.nil_eq]
    norm_num
  refine ⟨?_, ?_⟩
  · rw [h1, h4]
    rfl
  · rw [h1, h4]
    rfl

/-- Two points on the equator whose haversine distance is exactly 120 m: the
longitude offset 21600/(6371000·π) degrees corresponds to an arc of
120/6371000 radians on the modelled sphere. -/
lemma haversine_equator_120 :
    haversineDistance 0 0 0 (21600 / (6371000 * Real.pi)) = 120 := by
  have hpi : Real.pi ≠ 0 := Real.pi_ne_zero
  have hzero : ((0 : ℝ) - 0) * Real.pi / 180 / 2 = 0 := by ring
  have hzero2 : (0 : ℝ) * Real.pi / 180 = 0 := by ring
  have ht : (21600 / (6371000 * Real.pi) - 0) * Real.pi / 180 / 2 = 60 / 6371000 := by
    field_simp
    ring
  have hts : (0 : ℝ) < 60 / 6371000 := by norm_num
  have htpi2 : (60 : ℝ) / 6371000 < Real.pi / 2 := by
    have h3 := Real.pi_gt_three
    have : (60 : ℝ) / 6371000 < 3 / 2 := by norm_num
    linarith
  have hsin_nonneg : 0 ≤ Real.sin (60 / 6371000) := by
    apply Real.sin_nonneg_of_nonneg_of_le_pi (le_of_lt hts)
    have h3 := Real.pi_gt_three
    have : (60 : ℝ) / 6371000 ≤ 3 := by norm_num
    linarith
  have hcos_pos : 0 < Real.cos (60 / 6371000) := by
    apply Real.cos_pos_of_mem_Ioo
    constructor
    · have := Real.pi_pos
      linarith
    · exact htpi2
  simp only [haversineDistance]
  rw [hzero, hzero2, ht, Real.sin_zero, Real.cos_zero]
  rw [show (0 : ℝ) * 0 + 1 * 1 * Real.sin (60 / 6371000) * Real.sin (60 / 6371000) =
      Real.sin (60 / 6371000) * Real.sin (60 / 6371000) by ring]
  rw [Real.sqrt_mul_self hsin_nonneg]
  rw [show (1 : ℝ) - Real.sin (60 / 6371000) * Real.sin (60 / 6371000) =
      Real.cos (60 / 6371000) * Real.cos (60 / 6371000) by
    have hpyth := Real.sin_sq_add_cos_sq ((60 : ℝ) / 6371000)
    nlinarith [hpyth]]
  rw [Real.sqrt_mul_self (le_of_lt hcos_pos)]
  have hatan : atan2 (Real.sin (60 / 6371000)) (Real.cos (60 / 6371000)) = 60 / 6371000 := by
    unfold atan2
    rw [if_pos hcos_pos]
    rw [← Real.tan_eq_sin_div_cos]
    apply Real.arctan_tan
    · have := Real.pi_pos
      linarith
    · exact htpi2
  rw [hatan]
  norm_num

/-- Witness for C7: two concrete equator vertices at haversine distance
exactly 120 m resample to the four points of the claim. -/
theorem twoVertexRoad_resampling_witness :
    haversineDistance (Coord.mk 0 0).lat (Coord.mk 0 0).lon
        (Coord.mk 0 (21600 / (6371000 * Real.pi))).lat
        (Coord.mk 0 (21600 / (6371000 * Real.pi))).lon = 120 ∧
    samplePointsAlongRoad [Coord.mk 0 0, Coord.mk 0 (21600 / (6371000 * Real.pi))] 50 =
      [Coord.mk 0 0,
        ⟨(Coord.mk 0 0).lat +
            ((Coord.mk 0 (21600 / (6371000 * Real.pi))).lat - (Coord.mk 0 0).lat) * (50 / 120),
          (Coord.mk 0 0).lon +
            ((Coord.mk 0 (21600 / (6371000 * Real.pi))).lon - (Coord.mk 0 0).lon) * (50 / 120)⟩,
        ⟨(Coord.mk 0 0).lat +
            ((Coord.mk 0 (21600 / (6371000 * Real.pi))).lat - (Coord.mk 0 0).lat) * (100 / 120),
          (Coord.mk 0 0).lon +
            ((Coord.mk 0 (21600 / (6371000 * Real.pi))).lon - (Coord.mk 0 0).lon) * (100 / 120)⟩,
        Coord.mk 0 (21600 / (6371000 * Real.pi))] ∧
    (samplePointsAlongRoad [Coord.mk 0 0, Coord.mk 0 (21600 / (6371000 * Real.pi))] 50).length
      = 4 :=
  ⟨haversine_equator_120,
    (twoVertexRoad_resampling (Coord.mk 0 0) (Coord.mk 0 (21600 / (6371000 * Real.pi)))
      haversine_equator_120).1,
    (twoVertexRoad_resampling (Coord.mk 0 0) (Coord.mk 0 (21600 / (6371000 * Real.pi)))
      haversine_equator_120).2⟩

end Brandenburg
